import Mathlib

/-!
Shallow embedding of the fall-detection core of this repository, together with
theorems checking the natural-language specification against it.

Embedded components (source files in parentheses):
* `FallClassifier`    (src/fall_detection/fall_classifier.py) — threshold +
  consecutive-positive confirmation/latch policy over an opaque scorer.
* `FeatureEngineer`   (src/detection/feature_engineer.py) — per-frame feature
  tuples, sliding window, feature-major flattening.
* `NearFallDetector`  (src/fall_detection/near_fall_detector.py) — the
  three-state rule machine over body-height-normalised hip kinematics.
* `EventLogger`       (src/fall_detection/event_logger.py) — pre/post-event
  clip buffer (the spec calls it EventClipRecorder).
* `DetectionPipeline` (src/fall_detection/pipeline.py) — the per-frame composer
  (the spec calls it DecisionComposer).

Python floats are modelled as exact rationals; external library routines with
no bearing on the claims (the pickled scorer pipeline, `np.arctan2`/degrees)
are modelled as opaque function parameters.  Fallible spots of the Python code
(places where the original would raise, e.g. comparing `None` with a float)
are modelled with `Option`.
-/

set_option linter.unusedVariables false

/-- Semantics of Python's `collections.deque(maxlen=cap)` right-append:
append `x` and keep only the last `cap` elements. -/
def pushD {α : Type} (cap : ℕ) (l : List α) (x : α) : List α :=
  let l2 := l ++ [x]
  l2.drop (l2.length - cap)

/-- Python's built-in `max` on a list of rationals (0 on the empty list, which
never occurs at the call sites below: the list has just been appended to). -/
def maxD (l : List ℚ) : ℚ :=
  match l with
  | [] => 0
  | x :: xs => xs.foldl max x

/-- Python's built-in `min` on a list of rationals (0 on the empty list). -/
def minD (l : List ℚ) : ℚ :=
  match l with
  | [] => 0
  | x :: xs => xs.foldl min x

/-- `np.mean` of a list of rationals. -/
def listMean (l : List ℚ) : ℚ := l.sum / l.length

/-- `np.var` (population variance) of a list of rationals. -/
def listVar (l : List ℚ) : ℚ :=
  ((l.map fun x => (x - listMean l) ^ 2).sum) / l.length

/-- The literal `1e-6` used as a division guard throughout the source. -/
def qeps : ℚ := 1 / 1000000

theorem length_pushD {α : Type} (cap : ℕ) (l : List α) (x : α) :
    (pushD cap l x).length = min (l.length + 1) cap := by
  simp [pushD]
  omega

/-- One frame of pose keypoints: 33 MediaPipe landmarks, of which the code
reads only the x (index 0) and y (index 1) columns. -/
structure Landmarks where
  x : Fin 33 → ℚ
  y : Fin 33 → ℚ

/-- `_avg_y` of src/fall_detection/near_fall_detector.py. -/
def avgY (lm : Landmarks) (a b : Fin 33) : ℚ := (lm.y a + lm.y b) / 2

/- ────────────────────────────────────────────────────────────────────────────
   FallClassifier  (src/fall_detection/fall_classifier.py)
   ──────────────────────────────────────────────────────────────────────── -/

/-- Return values of `FallClassifier.predict`. -/
inductive RfStatus
  | fall
  | no_fall
  | confirming
deriving DecidableEq, Repr

/-- State of `FallClassifier`.  `scorer` models the opaque pickled
`pipeline.predict_proba(...)[0, 1]` call and `threshold` the loaded decision
threshold. -/
structure FallClassifier where
  scorer : List ℚ → ℚ
  threshold : ℚ
  confirmation_windows : ℕ
  consecutive_positives : ℕ
  fall_declared : Bool

/-- `FallClassifier.predict` of src/fall_detection/fall_classifier.py. -/
def FallClassifier.predict (c : FallClassifier) (flat_features : Option (List ℚ)) :
    FallClassifier × RfStatus :=
  match flat_features with
  | none => ({ c with consecutive_positives := 0 }, .no_fall)
  | some feats =>
    let proba := c.scorer feats
    let c1 :=
      if c.threshold ≤ proba then
        { c with consecutive_positives := c.consecutive_positives + 1 }
      else
        { c with consecutive_positives := 0, fall_declared := false }
    if c1.confirmation_windows ≤ c1.consecutive_positives ∧ c1.fall_declared = false then
      ({ c1 with fall_declared := true }, .fall)
    else if 0 < c1.consecutive_positives then (c1, .confirming)
    else (c1, .no_fall)

/-- `FallClassifier.reset`. -/
def FallClassifier.reset (c : FallClassifier) : FallClassifier :=
  { c with consecutive_positives := 0, fall_declared := false }

/-- Feed a list of inputs to `predict`, collecting the per-call results. -/
def predictRun (c : FallClassifier) : List (Option (List ℚ)) → FallClassifier × List RfStatus
  | [] => (c, [])
  | x :: xs =>
    let r := c.predict x
    let rest := predictRun r.1 xs
    (rest.1, r.2 :: rest.2)

/-- Modelled from the spec: the length of the run of consecutive `true`
entries ending at each position, starting from a previous run length `s`.
This is the spec's notion of "consecutive scores ≥ threshold". -/
def streakCountsAux (s : ℕ) : List Bool → List ℕ
  | [] => []
  | b :: bs =>
    let s1 := if b then s + 1 else 0
    s1 :: streakCountsAux s1 bs

/-- Modelled from the spec: consecutive-positive run lengths of a stream. -/
def streakCounts (pos : List Bool) : List ℕ := streakCountsAux 0 pos

/-- Final run length after folding a whole stream of positivity flags. -/
def lastStreak (s : ℕ) (pos : List Bool) : ℕ :=
  pos.foldl (fun a b => if b then a + 1 else 0) s

theorem streakCountsAux_length (s : ℕ) (l : List Bool) :
    (streakCountsAux s l).length = l.length := by
  induction l generalizing s with
  | nil => rfl
  | cons b bs ih => simp [streakCountsAux, ih]

/-- A single `predict` step on a present input, under the latch invariant
`fall_declared = (confirmation_windows ≤ consecutive_positives)`. -/
theorem FallClassifier.predict_step (c : FallClassifier) (f : List ℚ)
    (h1 : 1 ≤ c.confirmation_windows)
    (h2 : c.fall_declared = decide (c.confirmation_windows ≤ c.consecutive_positives)) :
    c.predict (some f) =
      (let s1 := if c.threshold ≤ c.scorer f then c.consecutive_positives + 1 else 0
       ({ c with consecutive_positives := s1,
                 fall_declared := decide (c.confirmation_windows ≤ s1) },
        if s1 = c.confirmation_windows then .fall
        else if 0 < s1 then .confirming else .no_fall)) := by
  by_cases hp : c.threshold ≤ c.scorer f
  · by_cases hd : c.confirmation_windows ≤ c.consecutive_positives
    · have hd' : c.fall_declared = true := by rw [h2]; simp [hd]
      have hcc : c.confirmation_windows ≤ c.consecutive_positives + 1 := le_trans hd (by omega)
      have hne : ¬ (c.consecutive_positives + 1 = c.confirmation_windows) := by omega
      simp [FallClassifier.predict, hp, hd', hcc, hne]
    · have hd' : c.fall_declared = false := by rw [h2]; simp [hd]
      by_cases hc : c.confirmation_windows ≤ c.consecutive_positives + 1
      · have he : c.consecutive_positives + 1 = c.confirmation_windows := by omega
        simp [FallClassifier.predict, hp, hd', hc, he]
      · have hne : ¬ (c.consecutive_positives + 1 = c.confirmation_windows) := by omega
        simp [FallClassifier.predict, hp, hd', hc, hne]
  · have hz : ¬ (c.confirmation_windows ≤ 0) := by omega
    have hne : ¬ ((0 : ℕ) = c.confirmation_windows) := by omega
    simp [FallClassifier.predict, hp, hz, hne]

/-- Full characterisation of a run of `predict` over present inputs: the
output stream is the image of the streak counts, and the final state carries
the final streak with the latch equal to "streak has reached the confirmation
count". -/
theorem predictRun_char (feats : List (List ℚ)) :
    ∀ c : FallClassifier,
      1 ≤ c.confirmation_windows →
      c.fall_declared = decide (c.confirmation_windows ≤ c.consecutive_positives) →
      (predictRun c (feats.map some)).2 =
        (streakCountsAux c.consecutive_positives
            (feats.map fun f => decide (c.threshold ≤ c.scorer f))).map
          (fun s => if s = c.confirmation_windows then RfStatus.fall
                    else if 0 < s then .confirming else .no_fall)
      ∧ (predictRun c (feats.map some)).1 =
        { c with
          consecutive_positives :=
            lastStreak c.consecutive_positives
              (feats.map fun f => decide (c.threshold ≤ c.scorer f)),
          fall_declared :=
            decide (c.confirmation_windows ≤
              lastStreak c.consecutive_positives
                (feats.map fun f => decide (c.threshold ≤ c.scorer f))) } := by
  induction feats with
  | nil =>
    intro c h1 h2
    constructor
    · rfl
    · simp [predictRun, lastStreak, ← h2]
  | cons f fs ih =>
    intro c h1 h2
    have hstep := c.predict_step f h1 h2
    by_cases hp : c.threshold ≤ c.scorer f
    · have hb : decide (c.threshold ≤ c.scorer f) = true := by simp [hp]
      have hstep' : c.predict (some f) =
          ({ c with consecutive_positives := c.consecutive_positives + 1,
                    fall_declared :=
                      decide (c.confirmation_windows ≤ c.consecutive_positives + 1) },
           if c.consecutive_positives + 1 = c.confirmation_windows then RfStatus.fall
           else if 0 < c.consecutive_positives + 1 then .confirming else .no_fall) := by
        rw [hstep]; simp only [if_pos hp]
      have ihc := ih
        { c with consecutive_positives := c.consecutive_positives + 1,
                 fall_declared :=
                   decide (c.confirmation_windows ≤ c.consecutive_positives + 1) } h1 rfl
      dsimp only at ihc
      constructor
      · simp only [List.map_cons, predictRun, hstep', streakCountsAux, hb, if_true,
          List.map_cons, ihc.1]
      · simp only [List.map_cons, predictRun, hstep', streakCountsAux, lastStreak, hb,
          if_true, List.foldl_cons, ihc.2]
    · have hb : decide (c.threshold ≤ c.scorer f) = false := by simp [hp]
      have hstep' : c.predict (some f) =
          ({ c with consecutive_positives := 0,
                    fall_declared := decide (c.confirmation_windows ≤ 0) },
           RfStatus.no_fall) := by
        rw [hstep]
        have hz : ¬ ((0 : ℕ) = c.confirmation_windows) := by omega
        simp only [if_neg hp]
        simp [hz]
      have ihc := ih
        { c with consecutive_positives := 0,
                 fall_declared := decide (c.confirmation_windows ≤ 0) } h1 rfl
      dsimp only at ihc
      constructor
      · have hz : ¬ ((0 : ℕ) = c.confirmation_windows) := by omega
        simp only [List.map_cons, predictRun, hstep', streakCountsAux, hb,
          Bool.false_eq_true, if_false, List.map_cons, ihc.1, hz]
        simp
      · simp only [List.map_cons, predictRun, hstep', streakCountsAux, lastStreak, hb,
          Bool.false_eq_true, if_false, List.foldl_cons, ihc.2]

/-- `FallClassifier.__init__`: fresh confirmation state; `scorer`/`threshold`
stand for the loaded pickle artifact. -/
def FallClassifier.init (scorer : List ℚ → ℚ) (threshold : ℚ)
    (confirmation_windows : ℕ) : FallClassifier :=
  ⟨scorer, threshold, confirmation_windows, 0, false⟩

theorem predictRun_append (l1 l2 : List (Option (List ℚ))) (c : FallClassifier) :
    predictRun c (l1 ++ l2) =
      ((predictRun (predictRun c l1).1 l2).1,
       (predictRun c l1).2 ++ (predictRun (predictRun c l1).1 l2).2) := by
  induction l1 generalizing c with
  | nil => simp [predictRun]
  | cons x xs ih => simp [predictRun, ih]

theorem lastStreak_concat_false (s : ℕ) (l : List Bool) :
    lastStreak s (l ++ [false]) = 0 := by
  simp [lastStreak, List.foldl_append]

/-- C1: for a probability stream with no absent inputs, starting from a fresh
classifier, `predict` returns `fall` exactly at the frames where the
consecutive-positive streak equals `confirmation_windows` (once per maximal
qualifying run, at the frame the counter first reaches the confirmation
count), returns `confirming` exactly at the other frames of a positive
streak (including all later frames of a qualifying run), and any
below-threshold score resets the consecutive counter to 0 and clears the
declared latch, re-arming the classifier. -/
theorem fall_classifier_streak_policy
    (scorer : List ℚ → ℚ) (t : ℚ) (cw : ℕ) (feats : List (List ℚ)) (k : ℕ)
    (hcw : 1 ≤ cw) (hk : k < feats.length) :
    ((predictRun (FallClassifier.init scorer t cw) (feats.map some)).2.getD k .no_fall
        = .fall
      ↔ (streakCounts (feats.map fun f => decide (t ≤ scorer f))).getD k 0 = cw)
    ∧ ((predictRun (FallClassifier.init scorer t cw) (feats.map some)).2.getD k .no_fall
        = .confirming
      ↔ 0 < (streakCounts (feats.map fun f => decide (t ≤ scorer f))).getD k 0
          ∧ (streakCounts (feats.map fun f => decide (t ≤ scorer f))).getD k 0 ≠ cw)
    ∧ ((feats.map fun f => decide (t ≤ scorer f)).getD k false = false →
        (predictRun (FallClassifier.init scorer t cw)
            ((feats.take (k + 1)).map some)).1.consecutive_positives = 0
        ∧ (predictRun (FallClassifier.init scorer t cw)
            ((feats.take (k + 1)).map some)).1.fall_declared = false) := by
  have hz : ¬ (cw ≤ 0) := by omega
  have hinv : (FallClassifier.init scorer t cw).fall_declared =
      decide ((FallClassifier.init scorer t cw).confirmation_windows ≤
        (FallClassifier.init scorer t cw).consecutive_positives) := by
    simp [FallClassifier.init, hz]
  have hchar := predictRun_char feats (FallClassifier.init scorer t cw) hcw hinv
  dsimp only [FallClassifier.init] at hchar
  have hlenpos : (feats.map fun f => decide (t ≤ scorer f)).length = feats.length := by
    simp
  have hlencs :
      (streakCounts (feats.map fun f => decide (t ≤ scorer f))).length = feats.length := by
    rw [streakCounts, streakCountsAux_length, hlenpos]
  have houts :
      (predictRun (FallClassifier.init scorer t cw) (feats.map some)).2.getD k .no_fall =
        (fun s => if s = cw then RfStatus.fall
                  else if 0 < s then .confirming else .no_fall)
          ((streakCounts (feats.map fun f => decide (t ≤ scorer f))).getD k 0) := by
    simp only [FallClassifier.init, streakCounts]
    rw [hchar.1]
    rw [List.getD_eq_getElem _ _
      (by rw [List.length_map, streakCountsAux_length, List.length_map]; exact hk)]
    rw [List.getElem_map,
      ← List.getD_eq_getElem _ 0 (by rw [streakCountsAux_length, List.length_map]; exact hk)]
  set sv := (streakCounts (feats.map fun f => decide (t ≤ scorer f))).getD k 0 with hsv
  constructor
  · rw [houts]
    by_cases hs : sv = cw
    · simp [hs]
    · by_cases h0 : 0 < sv
      · simp [hs, h0]
      · simp [hs, h0]
  constructor
  · rw [houts]
    by_cases hs : sv = cw
    · simp [hs]
    · by_cases h0 : 0 < sv
      · simp [hs, h0]
      · simp [hs, h0]
  · intro hneg
    have hchart := predictRun_char (feats.take (k + 1))
      (FallClassifier.init scorer t cw) hcw hinv
    dsimp only [FallClassifier.init] at hchart
    have hmt : ((feats.take (k + 1)).map fun f => decide (t ≤ scorer f)) =
        ((feats.map fun f => decide (t ≤ scorer f)).take k) ++ [false] := by
      rw [← List.map_take, List.take_succ]
      have hgk : feats[k]?.toList = [feats[k]] := by
        simp [List.getElem?_eq_getElem hk]
      rw [hgk, List.map_append, List.map_take]
      have : decide (t ≤ scorer feats[k]) = false := by
        have := hneg
        rwa [List.getD_eq_getElem _ _ (by simpa using hk), List.getElem_map] at this
      simp [this]
    have hls : lastStreak 0 ((feats.take (k + 1)).map fun f => decide (t ≤ scorer f)) = 0 := by
      rw [hmt, lastStreak_concat_false]
    simp only [FallClassifier.init]
    rw [hchart.2]
    constructor
    · exact hls
    · show decide (cw ≤ lastStreak 0
        ((feats.take (k + 1)).map fun f => decide (t ≤ scorer f))) = false
      rw [hls]
      simp [hz]

/-- Witness for C1 at a concrete stream: threshold 1/2, confirmation count 2,
scores 1,1,1,0,1,1 (the scorer reads the head of each vector); the second
call is the frame whose streak first reaches 2. -/
theorem fall_classifier_streak_policy_witness :
    1 ≤ 2 ∧ 1 < ([[(1:ℚ)], [1], [1], [0], [1], [1]] : List (List ℚ)).length ∧
      ((predictRun (FallClassifier.init (fun f => f.headD 0) (1/2) 2)
          (([[(1:ℚ)], [1], [1], [0], [1], [1]] : List (List ℚ)).map some)).2.getD 1 .no_fall
          = .fall
        ↔ (streakCounts (([[(1:ℚ)], [1], [1], [0], [1], [1]] : List (List ℚ)).map
            fun f => decide ((1:ℚ)/2 ≤ f.headD 0))).getD 1 0 = 2) :=
  ⟨by decide, by decide,
    (fall_classifier_streak_policy (fun f => f.headD 0) (1/2) 2
      [[(1:ℚ)], [1], [1], [0], [1], [1]] 1 (by decide) (by decide)).1⟩

/-- While the declared latch is set, a run of above-threshold inputs returns
`confirming` on every frame and never clears the latch. -/
theorem predictRun_declared_all_pos (feats : List (List ℚ)) :
    ∀ c : FallClassifier, c.fall_declared = true →
      (∀ f ∈ feats, c.threshold ≤ c.scorer f) →
      (predictRun c (feats.map some)).2 = List.replicate feats.length .confirming
      ∧ (predictRun c (feats.map some)).1.fall_declared = true := by
  induction feats with
  | nil => intro c h1 h2; exact ⟨rfl, h1⟩
  | cons f fs ih =>
    intro c h1 h2
    have hp : c.threshold ≤ c.scorer f := h2 f (by simp)
    have hpred : c.predict (some f) =
        ({ c with consecutive_positives := c.consecutive_positives + 1 }, .confirming) := by
      simp [FallClassifier.predict, hp, h1]
    have ihc := ih { c with consecutive_positives := c.consecutive_positives + 1 } h1
      (fun g hg => h2 g (by simp [hg]))
    constructor
    · simp [predictRun, hpred, List.replicate_succ, ihc.1]
    · simp [predictRun, hpred, ihc.2]

/-- C9: `predict none` zeroes the consecutive counter but leaves the declared
latch set; hence once a fall has been declared, a `none` input followed by a
fresh run of `confirmation_windows` consecutive above-threshold scores (with
no intervening below-threshold score) yields `confirming` at the confirmation
point instead of a second `fall`. -/
theorem fall_classifier_none_keeps_latch
    (c : FallClassifier) (feats : List (List ℚ))
    (hd : c.fall_declared = true)
    (hlen : feats.length = c.confirmation_windows)
    (hpos : ∀ f ∈ feats, c.threshold ≤ c.scorer f) :
    (c.predict none).1.consecutive_positives = 0
    ∧ (c.predict none).1.fall_declared = true
    ∧ (predictRun c (none :: feats.map some)).2 =
        .no_fall :: List.replicate c.confirmation_windows .confirming := by
  refine ⟨rfl, hd, ?_⟩
  have hrun := predictRun_declared_all_pos feats
    { c with consecutive_positives := 0 } hd hpos
  simp [predictRun, FallClassifier.predict, hrun.1, hlen]

/-- Witness for C9: a classifier with the latch already declared, a `none`
input, then two above-threshold scores with confirmation count 2: the
confirmation point returns `confirming`, not `fall`. -/
theorem fall_classifier_none_keeps_latch_witness :
    ((⟨fun _ => (1:ℚ), 1/2, 2, 5, true⟩ : FallClassifier).fall_declared = true)
    ∧ ([[(0:ℚ)], [0]] : List (List ℚ)).length =
        (⟨fun _ => (1:ℚ), 1/2, 2, 5, true⟩ : FallClassifier).confirmation_windows
    ∧ (predictRun (⟨fun _ => (1:ℚ), 1/2, 2, 5, true⟩ : FallClassifier)
        (none :: ([[(0:ℚ)], [0]] : List (List ℚ)).map some)).2 =
        .no_fall :: List.replicate 2 .confirming :=
  ⟨rfl, rfl,
    (fall_classifier_none_keeps_latch (⟨fun _ => (1:ℚ), 1/2, 2, 5, true⟩ : FallClassifier)
      [[(0:ℚ)], [0]] rfl rfl (by intro f hf; norm_num)).2.2⟩

/- ────────────────────────────────────────────────────────────────────────────
   NearFallDetector  (src/fall_detection/near_fall_detector.py)
   ──────────────────────────────────────────────────────────────────────── -/

def VELOCITY_TRIGGER : ℚ := 1/40
def VELOCITY_CALM : ℚ := 3/250
def ACTIVITY_RATIO_SIT : ℚ := 11/20
def RECOVERY_FRAMES : ℤ := 30
def MIN_DROP_TO_QUALIFY : ℚ := 1/25
def RECOVERY_TOLERANCE : ℚ := 1/20
def BASELINE_FRAMES : ℕ := 45
def MAX_ACTIVITY_RATIO : ℚ := 5

/-- FSM states of the near-fall detector (`_State` in the source). -/
inductive NFState
  | IDLE
  | TRIGGERED
  | RECOVERY
deriving DecidableEq, Repr

/-- Return values of `NearFallDetector.update`. -/
inductive NFOut
  | near_fall
  | sitting
  | no_event
deriving DecidableEq, Repr

/-- State of `NearFallDetector`. -/
structure NearFallDetector where
  baseline_buf : List ℚ
  standing_norm : Option ℚ
  prev_norm : Option ℚ
  velocity_buf : List ℚ
  state : NFState
  recovery_frames_left : ℤ
  lowest_norm_in_recovery : Option ℚ
  triggered_rules : List String
deriving DecidableEq, Repr

/-- `NearFallDetector.__init__` (the `debug` flag only controls printing). -/
def NearFallDetector.init : NearFallDetector :=
  ⟨[], none, none, [], .IDLE, 0, none, []⟩

/-- `NearFallDetector.reset`. -/
def NearFallDetector.reset (d : NearFallDetector) : NearFallDetector :=
  { d with baseline_buf := [], standing_norm := none, prev_norm := none,
           velocity_buf := [], state := .IDLE, recovery_frames_left := 0,
           lowest_norm_in_recovery := none, triggered_rules := [] }

/-- `hip_norm` as derived in `NearFallDetector.update`. -/
def hipNormOf (lm : Landmarks) : ℚ :=
  let hip_y := avgY lm 23 24
  let knee_y := avgY lm 25 26
  let shoulder_y := avgY lm 11 12
  let body_height := |knee_y - shoulder_y| + qeps
  (hip_y - shoulder_y) / body_height

/-- `activity_ratio` as derived in `NearFallDetector.update`. -/
def activityRatioOf (lm : Landmarks) : ℚ :=
  let hip_y := avgY lm 23 24
  let knee_y := avgY lm 25 26
  let shoulder_y := avgY lm 11 12
  let leg_height := |knee_y - hip_y| + qeps
  let torso_height := |hip_y - shoulder_y| + qeps
  leg_height / torso_height

/-- The "state machine" section of `NearFallDetector.update`, operating on
the state after the velocity/baseline bookkeeping of the same call.
Returns `none` exactly where the Python code would raise (comparing a `None`
deepest-drop marker against a float inside the RECOVERY branch — unreachable
from the constructed states). -/
def NearFallDetector.stateStep (d2 : NearFallDetector)
    (hip_norm activity_ratio peak_velocity : ℚ) :
    Option (NearFallDetector × NFOut) :=
  match d2.state with
  | .IDLE =>
    let velocity_spike := decide (VELOCITY_TRIGGER ≤ peak_velocity)
    let is_below_baseline :=
      match d2.standing_norm with
      | some b => decide (b + 1/100 < hip_norm)
      | none => true
    if velocity_spike && is_below_baseline then
      some ({ d2 with
              triggered_rules := d2.triggered_rules ++ ["velocity_spike_below_baseline"],
              state := .TRIGGERED }, .no_event)
    else
      some (d2, .no_event)
  | .TRIGGERED =>
    if activity_ratio < ACTIVITY_RATIO_SIT ∧ |peak_velocity| < VELOCITY_TRIGGER then
      some ({ d2 with
              triggered_rules := d2.triggered_rules ++ ["activity_ratio_sit"],
              state := .IDLE }, .sitting)
    else
      some ({ d2 with
              triggered_rules := d2.triggered_rules ++ ["entering_recovery"],
              state := .RECOVERY,
              recovery_frames_left := RECOVERY_FRAMES,
              lowest_norm_in_recovery := some hip_norm }, .no_event)
  | .RECOVERY =>
    match d2.lowest_norm_in_recovery with
    | none => none
    | some low0 =>
      let d3 := { d2 with recovery_frames_left := d2.recovery_frames_left - 1 }
      let low := if low0 < hip_norm then hip_norm else low0
      let d4 := { d3 with lowest_norm_in_recovery := some low }
      let dropped_enough :=
        match d4.standing_norm with
        | some b => decide (b + MIN_DROP_TO_QUALIFY < low)
        | none => false
      let recovered :=
        match d4.standing_norm with
        | some b => dropped_enough && decide (hip_norm ≤ b + RECOVERY_TOLERANCE)
        | none => false
      if recovered then
        some ({ d4 with
                triggered_rules := d4.triggered_rules ++ ["recovery_detected"],
                state := .IDLE,
                lowest_norm_in_recovery := none }, .near_fall)
      else if d4.recovery_frames_left ≤ 0 then
        some ({ d4 with state := .IDLE, lowest_norm_in_recovery := none }, .no_event)
      else
        some (d4, .no_event)

/-- `NearFallDetector.update`: absent-input handling, keypoint derivation,
sanity filter, velocity and baseline bookkeeping, then the state machine
(`stateStep`). -/
def NearFallDetector.update (d : NearFallDetector) (landmarks : Option Landmarks) :
    Option (NearFallDetector × NFOut) :=
  match landmarks with
  | none => some ({ d with prev_norm := none, triggered_rules := [] }, .no_event)
  | some lm =>
    let d0 := { d with triggered_rules := ([] : List String) }
    let hip_norm := hipNormOf lm
    let activity_ratio := activityRatioOf lm
    if MAX_ACTIVITY_RATIO < activity_ratio
        ∨ ¬ (-(1/5) ≤ hip_norm ∧ hip_norm ≤ 5/2) then
      some ({ d0 with prev_norm := none }, .no_event)
    else
      let velocity : ℚ :=
        match d0.prev_norm with
        | some p => hip_norm - p
        | none => 0
      let d1 := { d0 with prev_norm := some hip_norm,
                          velocity_buf := pushD 3 d0.velocity_buf velocity }
      let peak_velocity := maxD d1.velocity_buf
      let d2 :=
        if |peak_velocity| < VELOCITY_CALM then
          let buf := pushD BASELINE_FRAMES d1.baseline_buf hip_norm
          if BASELINE_FRAMES ≤ buf.length then
            { d1 with baseline_buf := buf, standing_norm := some (listMean buf) }
          else
            { d1 with baseline_buf := buf }
        else d1
      d2.stateStep hip_norm activity_ratio peak_velocity

/-- Feed a list of frames to `update`, collecting for each frame the returned
status together with the fired-rule list and the FSM state after the frame
(`none` if any step would have raised). -/
def runNF (d : NearFallDetector) :
    List (Option Landmarks) → Option (NearFallDetector × List (NFOut × List String × NFState))
  | [] => some (d, [])
  | f :: fs =>
    match d.update f with
    | none => none
    | some (d1, o) =>
      match runNF d1 fs with
      | none => none
      | some (d2, os) => some (d2, (o, d1.triggered_rules, d1.state) :: os)

theorem runNF_append (d : NearFallDetector) (l1 l2 : List (Option Landmarks))
    (d1 d2 : NearFallDetector)
    (o1 o2 : List (NFOut × List String × NFState))
    (h1 : runNF d l1 = some (d1, o1)) (h2 : runNF d1 l2 = some (d2, o2)) :
    runNF d (l1 ++ l2) = some (d2, o1 ++ o2) := by
  induction l1 generalizing d o1 with
  | nil =>
    simp only [runNF, Option.some.injEq, Prod.mk.injEq] at h1
    obtain ⟨hd, ho⟩ := h1
    subst hd
    subst ho
    simpa using h2
  | cons x xs ih =>
    simp only [List.cons_append, runNF] at h1 ⊢
    cases hu : d.update x with
    | none => simp [hu] at h1
    | some r =>
      obtain ⟨rd, ro⟩ := r
      simp only [hu] at h1 ⊢
      cases hr : runNF rd xs with
      | none => simp [hr] at h1
      | some s =>
        obtain ⟨sd, so⟩ := s
        simp only [hr, Option.some.injEq, Prod.mk.injEq] at h1
        obtain ⟨hd, ho⟩ := h1
        subst hd
        simp only [List.append_eq]
        rw [ih rd so hr]
        rw [← ho]
        rfl

/-- A landmark frame with the two hips at `hip`, the two knees at `knee`, the
two shoulders at `shoulder` (y-coordinates); all other landmarks at 1/2. -/
def mkFrame (hip knee shoulder : ℚ) : Landmarks where
  x := fun _ => 1/2
  y := fun i =>
    if i.val = 23 ∨ i.val = 24 then hip
    else if i.val = 25 ∨ i.val = 26 then knee
    else if i.val = 11 ∨ i.val = 12 then shoulder
    else 1/2

/-- A standing-geometry frame whose derived `hip_norm` is exactly `n`:
shoulders at 3/10, knees at 7/10 (body height 400001/1000000 after the 1e-6
guard), hips at `3/10 + n · 400001/1000000`. -/
def frameAt (n : ℚ) : Landmarks := mkFrame (3/10 + n * (400001/1000000)) (7/10) (3/10)

/-- C2's input stream: 45 calm frames at hip_norm 1, 3 frames at hip_norm 1.6,
10 frames back at hip_norm 1. -/
def scenarioStreamA : List (Option Landmarks) :=
  List.replicate 45 (some (frameAt 1)) ++ List.replicate 3 (some (frameAt (8/5)))
    ++ List.replicate 10 (some (frameAt 1))

/-- A stream whose velocity spike has left the 3-sample velocity buffer by the
frame after the trigger: 45 calm frames at hip_norm 1, then hip_norms
0.975, 1.005, 1.005, 1.02 (the 0.03 spike at the second of these is blocked by
the baseline check and only triggers two frames later, when it is about to
leave the buffer), then 3 frames at 1.02. -/
def scenarioStreamB : List (Option Landmarks) :=
  List.replicate 45 (some (frameAt 1))
    ++ [some (frameAt (39/40)), some (frameAt (201/200)), some (frameAt (201/200)),
        some (frameAt (51/50))]
    ++ List.replicate 3 (some (frameAt (51/50)))

/-- A stream that establishes no baseline before the drop: 44 calm frames at
hip_norm 1 (one short of the 45 needed), 2 frames at 1.6, 2 frames back at 1;
the last calm frame completes the baseline buffer mid-recovery. -/
def scenarioStreamC : List (Option Landmarks) :=
  List.replicate 44 (some (frameAt 1)) ++ List.replicate 2 (some (frameAt (8/5)))
    ++ List.replicate 2 (some (frameAt 1))

/-- A stream on which `sitting` fires while the standing baseline is still
unknown: a spike enters the velocity buffer during RECOVERY, the recovery
window times out, and the leftover spike re-triggers from IDLE one frame
before it leaves the buffer. -/
def scenarioStreamD : List (Option Landmarks) :=
  [some (frameAt 1), some (frameAt (11/10)), some (frameAt (6/5))]
    ++ List.replicate 28 (some (frameAt (123/100)))
    ++ List.replicate 5 (some (frameAt (63/50)))

set_option maxRecDepth 200000

/-- C2: from a freshly reset `NearFallDetector`, 45 calm frames at hip_norm 1
(establishing the baseline), then 3 frames at hip_norm 1.6, then 10 frames
back at hip_norm 1 produce exactly one `near_fall`, the fired-rule lists
observed across the stream include `entering_recovery` and
`recovery_detected`, and the final FSM state is IDLE. -/
theorem near_fall_recovery_scenario :
    ∀ d : NearFallDetector,
      ((runNF d.reset scenarioStreamA).map fun r =>
        ((r.2.map fun e => e.1).count .near_fall,
         r.1.state,
         decide ("entering_recovery" ∈ (r.2.map fun e => e.2.1).flatten),
         decide ("recovery_detected" ∈ (r.2.map fun e => e.2.1).flatten))) =
      some (1, .IDLE, true, true) := by
  intro d
  have hr : d.reset = NearFallDetector.init := rfl
  rw [hr]
  with_unfolding_all rfl

/-- C5 counterexample: `scenarioStreamA` contains a velocity spike that moves
the detector out of IDLE and its activity_ratio stays below 0.55 on every
frame, yet `sitting` is never returned and the FSM does enter RECOVERY (the
3-sample velocity buffer still holds the spike on the frame after the
trigger, so the `|peak_velocity| < 0.025` half of the sitting condition
fails). -/
theorem near_fall_sitting_claim_counterexample :
    (scenarioStreamA.all fun f =>
      match f with
      | some lm => decide (activityRatioOf lm < 11/20)
      | none => false) = true
    ∧ ((runNF NearFallDetector.init scenarioStreamA).map fun r =>
        ((r.2.map fun e => e.1).count .sitting,
         decide (.TRIGGERED ∈ r.2.map fun e => e.2.2),
         decide (.RECOVERY ∈ r.2.map fun e => e.2.2))) = some (0, true, true) := by
  constructor
  · with_unfolding_all rfl
  · with_unfolding_all rfl

/-- C5 (amended): on a stream whose triggering spike has already left the
3-sample velocity buffer on the frame after the trigger (so that
`|peak_velocity| < 0.025` holds there), with activity_ratio below 0.55 on
every frame, the detector returns `sitting` exactly once, never returns
`near_fall`, never enters RECOVERY, and ends in IDLE. -/
theorem near_fall_sitting_scenario :
    (scenarioStreamB.all fun f =>
      match f with
      | some lm => decide (activityRatioOf lm < 11/20)
      | none => false) = true
    ∧ ((runNF NearFallDetector.init scenarioStreamB).map fun r =>
        ((r.2.map fun e => e.1).count .sitting,
         (r.2.map fun e => e.1).count .near_fall,
         r.1.state,
         decide (.TRIGGERED ∈ r.2.map fun e => e.2.2),
         decide (.RECOVERY ∈ r.2.map fun e => e.2.2))) =
      some (1, 0, .IDLE, true, false) := by
  constructor
  · with_unfolding_all rfl
  · with_unfolding_all rfl

/-- C6: a frame whose derived activity_ratio exceeds 5.0 or whose hip_norm
lies outside [−0.2, 2.5] is rejected by the sanity filter in every FSM state:
`update` clears the previous-norm memory, returns `no_event`, and leaves the
FSM state exactly as it was before the call. -/
theorem near_fall_sanity_filter (d : NearFallDetector) (lm : Landmarks)
    (h : 5 < activityRatioOf lm ∨ hipNormOf lm < -(1/5) ∨ 5/2 < hipNormOf lm) :
    ((d.update (some lm)).map fun r => (r.1.prev_norm, r.1.state, r.2)) =
      some (none, d.state, .no_event) := by
  have hc : MAX_ACTIVITY_RATIO < activityRatioOf lm
      ∨ ¬ (-(1/5) ≤ hipNormOf lm ∧ hipNormOf lm ≤ 5/2) := by
    rcases h with h | h | h
    · left; exact h
    · right; intro hcon; linarith [hcon.1]
    · right; intro hcon; linarith [hcon.2]
  simp only [NearFallDetector.update]
  rw [if_pos hc]
  rfl

/-- A frame with activity_ratio about 12 (well above the 5.0 sanity bound). -/
def sanityFrame : Landmarks := mkFrame (31/100) (43/100) (3/10)

/-- A detector state in the TRIGGERED FSM state, used to witness that the
sanity filter preserves a non-IDLE state. -/
def sanityState : NearFallDetector :=
  ⟨[1, 1], none, some 1, [0], .TRIGGERED, 0, none, ["velocity_spike_below_baseline"]⟩

/-- Witness for C6: a concrete frame with activity_ratio above 5 fed to a
TRIGGERED-state detector is treated as absent and the state stays TRIGGERED. -/
theorem near_fall_sanity_filter_witness :
    (5 < activityRatioOf sanityFrame ∨ hipNormOf sanityFrame < -(1/5)
      ∨ 5/2 < hipNormOf sanityFrame)
    ∧ ((sanityState.update (some sanityFrame)).map fun r =>
        (r.1.prev_norm, r.1.state, r.2)) = some (none, sanityState.state, .no_event) :=
  ⟨Or.inl (of_decide_eq_true (by with_unfolding_all rfl)),
   near_fall_sanity_filter sanityState sanityFrame
     (Or.inl (of_decide_eq_true (by with_unfolding_all rfl)))⟩

/-- C10 counterexample: on `scenarioStreamC`, starting from construction, the
standing baseline is still `none` when the 48th frame arrives (index 47), yet
that frame returns `near_fall` — the baseline is established by the very call
that emits the event (the calm-frame baseline update runs before the RECOVERY
block within the same call). -/
theorem near_fall_baseline_claim_counterexample :
    ((runNF NearFallDetector.init (scenarioStreamC.take 47)).map fun r =>
      r.1.standing_norm) = some none
    ∧ ((runNF NearFallDetector.init scenarioStreamC).map fun r =>
        ((r.2.map fun e => e.1).getD 47 .no_event,
         (r.2.map fun e => e.1).count .near_fall)) = some (.near_fall, 1) := by
  constructor
  · with_unfolding_all rfl
  · with_unfolding_all rfl

/-- In the state machine, `near_fall` can only be emitted from the RECOVERY
branch whose `dropped_enough`/`recovered` tests require a known standing
baseline, which the emitted state retains. -/
theorem stateStep_near_fall_baseline (d2 : NearFallDetector)
    (hn ar pv : ℚ) (d' : NearFallDetector)
    (h : d2.stateStep hn ar pv = some (d', .near_fall)) :
    d'.standing_norm ≠ none := by
  unfold NearFallDetector.stateStep at h
  dsimp only at h
  split at h
  · split at h <;> simp at h
  · split at h <;> simp at h
  · split at h
    · simp at h
    · cases hsn : d2.standing_norm with
      | none =>
        rw [hsn] at h
        dsimp only at h
        split at h
        · simp_all
        · split at h <;> simp at h
      | some b =>
        rw [hsn] at h
        dsimp only at h
        split at h <;> split at h <;>
          first
          | (rw [Option.some.injEq, Prod.mk.injEq] at h
             obtain ⟨hd, -⟩ := h
             subst hd
             simp)
          | (split at h <;> simp at h)

/-- C10 (amended): `update` never returns `near_fall` with the standing
baseline still unknown at the end of the call — the baseline may however be
established mid-call by the very frame that emits `near_fall` (see the
counterexample for the at-entry reading); and `sitting` can be returned on a
run (from construction) during which the baseline is never established. -/
theorem near_fall_requires_baseline :
    (∀ (d : NearFallDetector) (f : Option Landmarks) (d' : NearFallDetector)
        (out : NFOut),
        d.update f = some (d', out) → out = .near_fall → d'.standing_norm ≠ none)
    ∧ ((runNF NearFallDetector.init scenarioStreamD).map fun r =>
        ((r.2.map fun e => e.1).count .sitting,
         (r.2.map fun e => e.1).count .near_fall,
         r.1.standing_norm)) = some (1, 0, none) := by
  constructor
  · intro d f d' out h hout
    subst hout
    cases f with
    | none => simp [NearFallDetector.update] at h
    | some lm =>
      simp only [NearFallDetector.update] at h
      split at h
      · simp at h
      · exact stateStep_near_fall_baseline _ _ _ _ _ h
  · with_unfolding_all rfl

/-- A detector state mid-RECOVERY with an established baseline and a recorded
deep drop, about to observe a recovered frame. -/
def d10w : NearFallDetector :=
  ⟨List.replicate 45 1, some 1, some 1, [0, 0, 0], .RECOVERY, 5, some (8/5), []⟩

/-- The update step taken from `d10w` on a standing frame. -/
def d10res : NearFallDetector × NFOut :=
  (NearFallDetector.update d10w (some (frameAt 1))).getD (d10w, .no_event)

/-- Witness for C10 (amended): a concrete call that emits `near_fall` ends
with a known baseline. -/
theorem near_fall_requires_baseline_witness :
    NearFallDetector.update d10w (some (frameAt 1)) = some (d10res.1, d10res.2)
    ∧ d10res.2 = .near_fall
    ∧ d10res.1.standing_norm ≠ none :=
  ⟨by with_unfolding_all rfl, by with_unfolding_all rfl,
   near_fall_requires_baseline.1 d10w (some (frameAt 1)) d10res.1 d10res.2
     (by with_unfolding_all rfl) (by with_unfolding_all rfl)⟩

/- ────────────────────────────────────────────────────────────────────────────
   EventLogger  (src/fall_detection/event_logger.py; the spec's
   EventClipRecorder)
   ──────────────────────────────────────────────────────────────────────── -/

def SECONDS_BEFORE : ℕ := 5
def SECONDS_AFTER : ℕ := 0
def FPS : ℕ := 15

/-- State of `EventLogger`; `α` is the raw frame type.  The saved-clip
artifact (an mp4 path in the source) is modelled as the list of frames handed
to the external encoder. -/
structure EventLogger (α : Type) where
  fps : ℕ
  frames_before : ℕ
  frames_after : ℕ
  frame_buffer : List α
  recording : Bool
  post_fall_frames : List α
  frames_remaining : ℤ
deriving DecidableEq, Repr

/-- `EventLogger.__init__(fps)`. -/
def EventLogger.init (α : Type) (fps : ℕ) : EventLogger α :=
  ⟨fps, SECONDS_BEFORE * fps, SECONDS_AFTER * fps, [], false, [], 0⟩

/-- `EventLogger._save_clip`: concatenates the pre-fall buffer with the
post-fall frames; yields `none` (with only a warning) when there is nothing
to save. -/
def EventLogger.save_clip {α : Type} (l : EventLogger α) : Option (List α) :=
  let all_frames := l.frame_buffer ++ l.post_fall_frames
  if all_frames.isEmpty then none else some all_frames

/-- `EventLogger.add_frame`. -/
def EventLogger.add_frame {α : Type} (l : EventLogger α) (frame : α) :
    EventLogger α × Option (List α) :=
  if l.recording = false then
    ({ l with frame_buffer := pushD l.frames_before l.frame_buffer frame }, none)
  else
    let l1 := { l with post_fall_frames := l.post_fall_frames ++ [frame],
                       frames_remaining := l.frames_remaining - 1 }
    if l1.frames_remaining ≤ 0 then
      ({ l1 with recording := false, post_fall_frames := [] }, l1.save_clip)
    else
      (l1, none)

/-- `EventLogger.on_fall_detected`. -/
def EventLogger.on_fall_detected {α : Type} (l : EventLogger α) : EventLogger α :=
  if l.recording then l
  else { l with recording := true, frames_remaining := (l.frames_after : ℤ),
                post_fall_frames := [] }

/-- `EventLogger.reset`. -/
def EventLogger.resetL {α : Type} (l : EventLogger α) : EventLogger α :=
  { l with frame_buffer := [], recording := false, post_fall_frames := [],
           frames_remaining := 0 }

/-- Feed a list of frames to `add_frame`, collecting the per-call results. -/
def runEL {α : Type} (l : EventLogger α) :
    List α → EventLogger α × List (Option (List α))
  | [] => (l, [])
  | x :: xs =>
    let r := l.add_frame x
    let rest := runEL r.1 xs
    (rest.1, r.2 :: rest.2)


/-- `add_frame` while recording with at least two frames still to capture:
append to the post-fall list, decrement, return `none`. -/
theorem EventLogger.add_frame_recording {α : Type} (l : EventLogger α) (x : α)
    (h1 : l.recording = true) (h2 : ¬ (l.frames_remaining - 1 ≤ 0)) :
    l.add_frame x =
      ({ l with post_fall_frames := l.post_fall_frames ++ [x],
                frames_remaining := l.frames_remaining - 1 }, none) := by
  simp [EventLogger.add_frame, h1, h2]

/-- `add_frame` while recording on the last frame to capture: the clip
(pre-fall buffer + post-fall frames) is returned and recording stops. -/
theorem EventLogger.add_frame_last {α : Type} (l : EventLogger α) (x : α)
    (h1 : l.recording = true) (h2 : l.frames_remaining = 1) :
    l.add_frame x =
      ({ l with recording := false, post_fall_frames := [],
                frames_remaining := 0 },
       some (l.frame_buffer ++ (l.post_fall_frames ++ [x]))) := by
  simp [EventLogger.add_frame, EventLogger.save_clip, h1, h2]

/-- While recording with as many frames remaining as will be supplied, every
`add_frame` call but the last returns `none`, the last returns the clip
(pre-fall buffer + all post-fall frames), and the logger ends non-recording. -/
theorem runEL_recording {α : Type} (frames : List α) :
    ∀ l : EventLogger α, l.recording = true →
      l.frames_remaining = (frames.length : ℤ) → 1 ≤ frames.length →
      (runEL l frames).2 =
        List.replicate (frames.length - 1) none
          ++ [some (l.frame_buffer ++ (l.post_fall_frames ++ frames))]
      ∧ (runEL l frames).1.recording = false := by
  induction frames with
  | nil => intro l h1 h2 h3; simp at h3
  | cons x xs ih =>
    intro l h1 h2 h3
    by_cases hx : xs.length = 0
    · have hx0 : xs = [] := List.length_eq_zero.mp hx
      subst hx0
      have hrem : l.frames_remaining = 1 := by simpa using h2
      simp [runEL, EventLogger.add_frame_last l x h1 hrem]
    · have hlen : 1 ≤ xs.length := by omega
      have hrem : ¬ (l.frames_remaining - 1 ≤ 0) := by
        simp only [List.length_cons] at h2
        omega
      have hrem2 : (({ l with post_fall_frames := l.post_fall_frames ++ [x],
                              frames_remaining := l.frames_remaining - 1 } :
          EventLogger α)).frames_remaining = (xs.length : ℤ) := by
        simp only [List.length_cons] at h2
        simp only [h2]
        push_cast
        ring
      have ihc := ih { l with post_fall_frames := l.post_fall_frames ++ [x],
                              frames_remaining := l.frames_remaining - 1 } h1 hrem2 hlen
      simp only [runEL, EventLogger.add_frame_recording l x h1 hrem]
      constructor
      · rw [List.length_cons, Nat.add_sub_cancel]
        rw [ihc.1]
        have hxs : xs.length = xs.length - 1 + 1 := by omega
        conv_rhs => rw [hxs]
        rw [List.replicate_succ]
        simp
      · exact ihc.2

/-- C4 (amended): `on_fall_detected` twice in a row leaves the recorder state
unchanged the second time; after a trigger, when `frames_after ≥ 1`, exactly
`frames_after` subsequent `add_frame` calls elapse before `add_frame` returns
its one non-none clip (all earlier calls during the recording return none),
after which the recorder is back in non-recording mode.  With the code's
configured `frames_after = SECONDS_AFTER · fps = 0`, the clip is instead
returned on the first `add_frame` call after the trigger (see the
counterexample). -/
theorem event_logger_clip_policy {α : Type} (l : EventLogger α) (frames : List α)
    (h0 : l.recording = false) (h1 : 1 ≤ l.frames_after)
    (h2 : frames.length = l.frames_after) :
    l.on_fall_detected.on_fall_detected = l.on_fall_detected
    ∧ (runEL l.on_fall_detected frames).2 =
        List.replicate (l.frames_after - 1) none
          ++ [some (l.frame_buffer ++ frames)]
    ∧ (runEL l.on_fall_detected frames).1.recording = false := by
  have hid : l.on_fall_detected.on_fall_detected = l.on_fall_detected := by
    unfold EventLogger.on_fall_detected
    simp [h0]
  have hfd : l.on_fall_detected =
      { l with recording := true, frames_remaining := (l.frames_after : ℤ),
               post_fall_frames := [] } := by
    unfold EventLogger.on_fall_detected
    simp [h0]
  have hrun := runEL_recording frames
    { l with recording := true, frames_remaining := (l.frames_after : ℤ),
             post_fall_frames := [] } rfl (by simp [h2]) (by omega)
  refine ⟨hid, ?_, ?_⟩
  · rw [hfd, hrun.1, h2]
    simp
  · rw [hfd]
    exact hrun.2

/-- A recorder configured with frames_after = 2, one buffered pre-fall frame,
not recording. -/
def elW : EventLogger ℕ := ⟨15, 75, 2, [9], false, [], 0⟩

/-- Witness for C4 (amended): with frames_after = 2, the second `add_frame`
after the trigger returns the clip (pre-fall buffer + the two post frames)
and the recorder is back in non-recording mode. -/
theorem event_logger_clip_policy_witness :
    elW.recording = false ∧ 1 ≤ elW.frames_after
    ∧ ([1, 2] : List ℕ).length = elW.frames_after
    ∧ ((runEL elW.on_fall_detected [1, 2]).2 =
        List.replicate (elW.frames_after - 1) none
          ++ [some (elW.frame_buffer ++ [1, 2])]
      ∧ (runEL elW.on_fall_detected [1, 2]).1.recording = false) :=
  ⟨rfl, by decide, rfl,
   (event_logger_clip_policy elW [1, 2] rfl (by decide) rfl).2⟩

/-- C4 counterexample: with the constructor's configuration the recorder has
`frames_after = SECONDS_AFTER · fps = 0`, and the first `add_frame` call
after a trigger already returns a (non-none) clip — the single non-none
return comes after 1 call, not after `frames_after = 0` calls. -/
theorem event_logger_zero_frames_after_counterexample :
    (EventLogger.init ℕ 15).frames_after = 0
    ∧ (runEL (EventLogger.init ℕ 15).on_fall_detected [7]).2 = [some [7]] := by
  constructor
  · rfl
  · decide

/- ────────────────────────────────────────────────────────────────────────────
   FeatureEngineer  (src/detection/feature_engineer.py)
   ──────────────────────────────────────────────────────────────────────── -/

def FEATURE_COLS_SINGLE : List String :=
  ["hip_y", "hip_velocity", "spine_angle", "bbox_aspect_ratio", "kp_variance"]

def WINDOW_SIZE : ℕ := 50

/-- State of `FeatureEngineer`. -/
structure FeatureEngineer where
  window_size : ℕ
  prev_hip_y : Option ℚ
  y_history : List ℚ
  window : List (List ℚ)
deriving DecidableEq, Repr

/-- `FeatureEngineer.__init__(window_size)`. -/
def FeatureEngineer.init (window_size : ℕ) : FeatureEngineer :=
  ⟨window_size, none, [], []⟩

/-- The flattening comprehension of `compute`:
`[window[i][j] for j in range(5) for i in range(window_size)]`. -/
def flattenWindow (W : ℕ) (window : List (List ℚ)) : List ℚ :=
  (((List.range FEATURE_COLS_SINGLE.length)).map fun j =>
    (List.range W).map fun i => (window.getD i []).getD j 0).flatten

/-- `FeatureEngineer.compute`.  `atan2deg` models the external
`np.degrees(np.arctan2(·, ·))` routine. -/
def FeatureEngineer.compute (atan2deg : ℚ → ℚ → ℚ) (fe : FeatureEngineer)
    (landmarks : Option Landmarks) : FeatureEngineer × Option (List ℚ) :=
  match landmarks with
  | none =>
    ({ fe with window := pushD fe.window_size fe.window
                 (List.replicate FEATURE_COLS_SINGLE.length 0),
               prev_hip_y := none }, none)
  | some lm =>
    let hip_y := (lm.y 23 + lm.y 24) / 2
    let hip_x := (lm.x 23 + lm.x 24) / 2
    let hip_velocity : ℚ :=
      match fe.prev_hip_y with
      | some p => hip_y - p
      | none => 0
    let shoulder_y := (lm.y 11 + lm.y 12) / 2
    let shoulder_x := (lm.x 11 + lm.x 12) / 2
    let dy := hip_y - shoulder_y
    let dx := hip_x - shoulder_x
    let spine_angle := atan2deg |dx| (|dy| + qeps)
    let all_x := List.ofFn lm.x
    let all_y := List.ofFn lm.y
    let bbox_w := maxD all_x - minD all_x
    let bbox_h := maxD all_y - minD all_y
    let bbox_aspect_ratio := bbox_h / (bbox_w + qeps)
    let y_history := pushD 10 fe.y_history (listMean all_y)
    let kp_variance := listVar y_history
    let frame_features := [hip_y, hip_velocity, spine_angle, bbox_aspect_ratio, kp_variance]
    let window := pushD fe.window_size fe.window frame_features
    let fe1 := { fe with prev_hip_y := some hip_y, y_history := y_history,
                         window := window }
    if window.length < fe.window_size then (fe1, none)
    else (fe1, some (flattenWindow fe.window_size window))

/-- `FeatureEngineer.reset`. -/
def FeatureEngineer.reset (fe : FeatureEngineer) : FeatureEngineer :=
  { fe with prev_hip_y := none, y_history := [], window := [] }

/-- Feed a list of frames to `compute`, collecting the per-call results. -/
def runFE (atan2deg : ℚ → ℚ → ℚ) (fe : FeatureEngineer) :
    List (Option Landmarks) → FeatureEngineer × List (Option (List ℚ))
  | [] => (fe, [])
  | x :: xs =>
    let r := fe.compute atan2deg x
    let rest := runFE atan2deg r.1 xs
    (rest.1, r.2 :: rest.2)

theorem getD_map_range {α : Type} (m j : ℕ) (hj : j < m) (f : ℕ → α) (d : α) :
    (((List.range m).map f).getD j d) = f j := by
  rw [List.getD_eq_getElem _ _ (by simpa using hj), List.getElem_map, List.getElem_range]

/-- Indexing a flattened list of equal-length blocks. -/
theorem flatten_getD_blocks (W : ℕ) (L : List (List ℚ))
    (hL : ∀ b ∈ L, b.length = W) :
    ∀ j i, j < L.length → i < W →
      L.flatten.getD (j * W + i) 0 = (L.getD j []).getD i 0 := by
  induction L with
  | nil => intro j i hj hi; simp at hj
  | cons b bs ih =>
    intro j i hj hi
    have hb : b.length = W := hL b (by simp)
    cases j with
    | zero =>
      rw [Nat.zero_mul, Nat.zero_add, List.flatten_cons]
      rw [List.getD_append _ _ _ _ (by rw [hb]; exact hi)]
      simp
    | succ j =>
      rw [List.flatten_cons]
      rw [List.getD_append_right _ _ _ _ (by rw [hb]; nlinarith)]
      have harith : (j + 1) * W + i - b.length = j * W + i := by
        rw [hb]; ring_nf; omega
      rw [harith]
      rw [ih (fun c hc => hL c (by simp [hc])) j i (by simpa using hj) hi]
      simp

theorem flattenWindow_length (W : ℕ) (window : List (List ℚ)) :
    (flattenWindow W window).length = 5 * W := by
  simp only [flattenWindow, List.length_flatten, List.map_map]
  have : ((List.range FEATURE_COLS_SINGLE.length).map
      (List.length ∘ fun j => (List.range W).map fun i => (window.getD i []).getD j 0)) =
      List.replicate FEATURE_COLS_SINGLE.length W := by
    rw [show (List.length ∘ fun j => (List.range W).map
        fun i => (window.getD i []).getD j 0) = fun _ => W from ?_]
    · rw [List.map_const', List.length_range]
    · funext j
      simp
  rw [this, List.sum_replicate]
  simp [FEATURE_COLS_SINGLE]

/-- C7: every non-none vector returned by `FeatureEngineer.compute` has
length `window_size × 5` and feature-major ordering: for each feature index
`j < 5`, the entries at positions `j·W + i` (for `i < W`) are the `W` time
samples of feature `j` across the window, oldest frame first — never
frame-major ordering. -/
theorem feature_vector_feature_major (a2d : ℚ → ℚ → ℚ) (fe : FeatureEngineer)
    (lm : Landmarks) (fe' : FeatureEngineer) (v : List ℚ)
    (h : fe.compute a2d (some lm) = (fe', some v)) :
    v.length = 5 * fe.window_size
    ∧ ∀ j i, j < 5 → i < fe.window_size →
        v.getD (j * fe.window_size + i) 0 = ((fe'.window.getD i []).getD j 0) := by
  unfold FeatureEngineer.compute at h
  dsimp only at h
  split at h
  · simp at h
  · rw [Prod.mk.injEq, Option.some.injEq] at h
    obtain ⟨hfe, hv⟩ := h
    subst hfe
    subst hv
    constructor
    · exact flattenWindow_length _ _
    · intro j i hj hi
      unfold flattenWindow
      rw [flatten_getD_blocks fe.window_size _ ?_ j i ?_ hi]
      · rw [getD_map_range _ _ (by simpa [FEATURE_COLS_SINGLE] using hj)]
        rw [getD_map_range _ _ hi]
      · intro b hb
        obtain ⟨j', hj', rfl⟩ := List.mem_map.mp hb
        simp
      · simpa [FEATURE_COLS_SINGLE] using hj

/-- The external-arctangent parameter used for concrete witnesses. -/
def a2d0 : ℚ → ℚ → ℚ := fun _ _ => 0

/-- A window-size-2 engineer after one present frame. -/
def feA : FeatureEngineer :=
  ((FeatureEngineer.init 2).compute a2d0 (some (frameAt 1))).1

/-- The second compute call on `feA`, whose window fills up. -/
def c7pair : FeatureEngineer × Option (List ℚ) :=
  feA.compute a2d0 (some (frameAt 1))

/-- The emitted flattened vector of `c7pair`. -/
def vA : List ℚ := c7pair.2.getD []

/-- Witness for C7: the window-size-2 engineer's first emitted vector has
length 10 and its entry at position `1·W + 0` is feature 1 of the oldest
frame. -/
theorem feature_vector_feature_major_witness :
    feA.compute a2d0 (some (frameAt 1)) = (c7pair.1, some vA)
    ∧ vA.length = 5 * feA.window_size
    ∧ vA.getD (1 * feA.window_size + 0) 0 = ((c7pair.1.window.getD 0 []).getD 1 0) :=
  ⟨by with_unfolding_all rfl,
   (feature_vector_feature_major a2d0 feA (frameAt 1) c7pair.1 vA
     (by with_unfolding_all rfl)).1,
   (feature_vector_feature_major a2d0 feA (frameAt 1) c7pair.1 vA
     (by with_unfolding_all rfl)).2 1 0 (by omega)
     (by with_unfolding_all decide)⟩

/-- A present-input `compute` call: the window grows by one (capped at
`window_size`), the window size is unchanged, and a vector is emitted exactly
when the post-push window is full. -/
theorem compute_present_window (a2d : ℚ → ℚ → ℚ) (fe : FeatureEngineer)
    (lm : Landmarks) :
    ((fe.compute a2d (some lm)).1.window.length = min (fe.window.length + 1) fe.window_size)
    ∧ ((fe.compute a2d (some lm)).1.window_size = fe.window_size)
    ∧ (((fe.compute a2d (some lm)).2).isSome
        = decide (fe.window_size ≤ fe.window.length + 1)) := by
  unfold FeatureEngineer.compute
  dsimp only
  split
  · next hcond =>
    rw [length_pushD] at hcond
    refine ⟨by simp [length_pushD], rfl, ?_⟩
    have : ¬ (fe.window_size ≤ fe.window.length + 1) := by omega
    simp [this]
  · next hcond =>
    rw [length_pushD] at hcond
    refine ⟨by simp [length_pushD], rfl, ?_⟩
    have : fe.window_size ≤ fe.window.length + 1 := by omega
    simp [this]

theorem runFE_isSome (a2d : ℚ → ℚ → ℚ) (lms : List Landmarks) :
    ∀ (fe : FeatureEngineer) (k : ℕ), k < lms.length →
      ((runFE a2d fe (lms.map some)).2.getD k none).isSome
        = decide (fe.window_size ≤ fe.window.length + (k + 1)) := by
  induction lms with
  | nil => intro fe k hk; simp at hk
  | cons x xs ih =>
    intro fe k hk
    cases k with
    | zero =>
      simp only [List.map_cons, runFE, List.getD_cons_zero]
      exact (compute_present_window a2d fe x).2.2
    | succ k =>
      simp only [List.map_cons, runFE, List.getD_cons_succ]
      have hlen := (compute_present_window a2d fe x).1
      have hws := (compute_present_window a2d fe x).2.1
      rw [ih (fe.compute a2d (some x)).1 k (by simpa using hk), hws, hlen]
      rw [decide_eq_decide]
      omega

/-- C8: after `FeatureEngineer.reset`, over any stream of present inputs the
k-th `compute` result is non-none exactly when `window_size ≤ k + 1`; i.e.
the first non-none result occurs exactly on the `window_size`-th consecutive
present call, and every later present call also returns non-none. -/
theorem feature_engineer_warmup (a2d : ℚ → ℚ → ℚ) (fe : FeatureEngineer)
    (lms : List Landmarks) (k : ℕ)
    (hW : 1 ≤ fe.window_size) (hk : k < lms.length) :
    ((runFE a2d fe.reset (lms.map some)).2.getD k none).isSome
      = decide (fe.window_size ≤ k + 1) := by
  have h := runFE_isSome a2d lms fe.reset k hk
  simpa [FeatureEngineer.reset] using h

/-- Witness for C8: with window size 1, the first present call after reset
already returns a vector. -/
theorem feature_engineer_warmup_witness :
    1 ≤ (FeatureEngineer.init 1).window_size
    ∧ 0 < ([frameAt 1] : List Landmarks).length
    ∧ ((runFE a2d0 (FeatureEngineer.init 1).reset ([frameAt 1].map some)).2.getD 0
          none).isSome
        = decide ((FeatureEngineer.init 1).window_size ≤ 0 + 1) :=
  ⟨by decide, by decide,
   feature_engineer_warmup a2d0 (FeatureEngineer.init 1) [frameAt 1] 0
     (by decide) (by decide)⟩

/- ────────────────────────────────────────────────────────────────────────────
   DetectionPipeline  (src/fall_detection/pipeline.py; the spec's
   DecisionComposer).  Pose estimation is the external collaborator: its
   outcome is the `Option Landmarks` input.  Frame annotation/drawing is
   display-only and not modelled.
   ──────────────────────────────────────────────────────────────────────── -/

/-- Per-frame result of the pipeline (minus the annotated frame, which is
display-only). -/
structure FrameResult where
  rf_status : RfStatus
  near_fall_status : NFOut
  alert : Bool
  pose_landmarks : Option Landmarks
  debug_rules : List String

/-- State of `DetectionPipeline`: the three stateful components. -/
structure DetectionPipeline where
  engineer : FeatureEngineer
  classifier : FallClassifier
  near_fall : NearFallDetector

/-- `DetectionPipeline.__init__(rf_confirmation_windows)`: a window-50
engineer, a classifier with the given confirmation count (the pipeline
passes 3), and a fresh near-fall detector. -/
def DetectionPipeline.init (scorer : List ℚ → ℚ) (threshold : ℚ)
    (rf_confirmation_windows : ℕ) : DetectionPipeline :=
  ⟨FeatureEngineer.init WINDOW_SIZE,
   FallClassifier.init scorer threshold rf_confirmation_windows,
   NearFallDetector.init⟩

/-- `DetectionPipeline.process_frame`: on no detected pose, return
immediately with `no_fall`/`no_event`/no alert; otherwise run the RF path
(FeatureEngineer → FallClassifier) and the rules path (NearFallDetector) and
compose the alert. -/
def DetectionPipeline.process_frame (p : DetectionPipeline) (atan2deg : ℚ → ℚ → ℚ)
    (landmarks : Option Landmarks) : Option (DetectionPipeline × FrameResult) :=
  match landmarks with
  | none => some (p, ⟨.no_fall, .no_event, false, none, []⟩)
  | some lm =>
    let er := p.engineer.compute atan2deg (some lm)
    let flat_features := er.2
    let cr := p.classifier.predict flat_features
    let rf_status := cr.2
    match (p.near_fall).update (some lm) with
    | none => none
    | some nr =>
      let near_fall_status := nr.2
      let alert := decide (rf_status = .fall) || decide (rf_status = .confirming)
        || decide (near_fall_status = .near_fall)
      some (⟨er.1, cr.1, nr.1⟩,
        ⟨rf_status, near_fall_status, alert, some lm, nr.1.triggered_rules⟩)

/-- `DetectionPipeline.reset`. -/
def DetectionPipeline.reset (p : DetectionPipeline) : DetectionPipeline :=
  ⟨p.engineer.reset, p.classifier.reset, p.near_fall.reset⟩

/-- C3 (amended): on frames with no detected pose the composer returns early
with `no_fall`/`no_event`/`alert = false` and the component states unchanged
(the absent frame is NOT forwarded to the components); on frames with a
detected pose both paths run and the returned alert equals
(rf_status ∈ {fall, confirming}) OR (near_fall_status = near_fall). -/
theorem pipeline_alert_composition :
    (∀ (a2d : ℚ → ℚ → ℚ) (p : DetectionPipeline),
        p.process_frame a2d none =
          some (p, ⟨.no_fall, .no_event, false, none, []⟩))
    ∧ (∀ (a2d : ℚ → ℚ → ℚ) (p : DetectionPipeline) (lm : Landmarks)
         (p' : DetectionPipeline) (r : FrameResult),
        p.process_frame a2d (some lm) = some (p', r) →
        r.alert = (decide (r.rf_status = .fall) || decide (r.rf_status = .confirming)
          || decide (r.near_fall_status = .near_fall))) := by
  constructor
  · intro a2d p
    rfl
  · intro a2d p lm p' r h
    unfold DetectionPipeline.process_frame at h
    dsimp only at h
    cases hu : (p.near_fall).update (some lm) with
    | none => rw [hu] at h; simp at h
    | some nr =>
      rw [hu] at h
      rw [Option.some.injEq, Prod.mk.injEq] at h
      obtain ⟨hp, hr⟩ := h
      subst hr
      rfl

/-- A scorer and pipeline used for the concrete C3 inputs. -/
def scorer0 : List ℚ → ℚ := fun _ => 0

def p0 : DetectionPipeline := DetectionPipeline.init scorer0 (1/2) 3

/-- The result of one present frame through `p0`. -/
def c3res : DetectionPipeline × FrameResult :=
  (p0.process_frame a2d0 (some (frameAt 1))).getD
    (p0, ⟨.no_fall, .no_event, false, none, []⟩)

/-- Witness for C3 (amended): a concrete present frame through a fresh
pipeline satisfies the alert composition. -/
theorem pipeline_alert_composition_witness :
    p0.process_frame a2d0 (some (frameAt 1)) = some (c3res.1, c3res.2)
    ∧ c3res.2.alert = (decide (c3res.2.rf_status = .fall)
        || decide (c3res.2.rf_status = .confirming)
        || decide (c3res.2.near_fall_status = .near_fall)) :=
  ⟨by with_unfolding_all rfl,
   pipeline_alert_composition.2 a2d0 p0 (frameAt 1) c3res.1 c3res.2
     (by with_unfolding_all rfl)⟩

/-- C3 counterexample: starting from a fresh pipeline, one present frame
grows the engineer window to length 1; a following absent frame leaves the
window at length 1 — no zero FeatureTuple is pushed, the window does not
slide, and the components are not invoked (the claim entails length 2). -/
theorem pipeline_absent_frame_counterexample :
    ((p0.process_frame a2d0 (some (frameAt 1))).bind fun r1 =>
      (r1.1.process_frame a2d0 none).map fun r2 =>
        (r1.1.engineer.window.length,
         r2.1.engineer.window.length,
         r2.2.rf_status, r2.2.near_fall_status, r2.2.alert)) =
      some (1, 1, .no_fall, .no_event, false) := by
  with_unfolding_all rfl
